import Mathlib

/-!
Shallow embedding of the IoT sensor-data backend (FastAPI + SQLAlchemy + Celery).

Timestamps are modelled as integers (seconds); calendar days as integers via
floor division by 86400. Floating-point reading values are modelled as
rationals. The two tables (sensor_readings, daily_stats) are lists of rows;
the auto-increment id sequence of sensor_readings is an explicit counter.
-/

/-- Row of the sensor_readings table (src/app/models.py, SensorReading). -/
structure SensorReading where
  id : Nat
  timestamp : Int
  field_id : String
  sensor_type : String
  reading_value : Rat
  unit : String
deriving DecidableEq, Repr

/-- Row of the daily_stats table (src/app/models.py, DailyStats).
The auto-assigned surrogate id is omitted: no claim concerns it and the
spec speaks of logical rows. The date column stores a day value. -/
structure DailyStat where
  date : Int
  field_id : String
  sensor_type : String
  avg_value : Rat
  min_value : Rat
  max_value : Rat
  count_readings : Nat
deriving DecidableEq, Repr

/-- The persistent store: both tables plus the id sequence for readings. -/
structure DB where
  nextId : Nat
  readings : List SensorReading
  stats : List DailyStat
deriving DecidableEq, Repr

/-- Validated input schema (src/app/schemas.py, SensorReadingCreate).
The timestamp is optional at the store level: the ORM column has
default=func.now() (src/app/models.py line 10), which fires when the
attribute is absent. -/
structure SensorReadingCreate where
  timestamp : Option Int
  field_id : String
  sensor_type : String
  reading_value : Rat
  unit : String
deriving DecidableEq, Repr

/-- Construction of an ORM row from an input: SensorReading(**reading.dict())
plus the id and timestamp defaults assigned at flush (src/app/models.py). -/
def mkRow (id : Nat) (now : Int) (r : SensorReadingCreate) : SensorReading :=
  { id := id
    timestamp := r.timestamp.getD now
    field_id := r.field_id
    sensor_type := r.sensor_type
    reading_value := r.reading_value
    unit := r.unit }

/-- SensorService.create_sensor_readings_batch (src/app/services.py lines
22-35): add every row to the session, commit once, return the refreshed
rows with their assigned identities. -/
def create_sensor_readings_batch (now : Int) (db : DB)
    (readings : List SensorReadingCreate) : DB × List SensorReading :=
  match readings with
  | [] => (db, [])
  | r :: rest =>
      let row := mkRow db.nextId now r
      let res := create_sensor_readings_batch now
        { db with nextId := db.nextId + 1, readings := db.readings ++ [row] } rest
      (res.1, row :: res.2)

/-- Result of the POST /sensor-data endpoint: either the synchronously
persisted rows, or the background-dispatch acknowledgement. -/
inductive DispatchResult where
  | sync (rows : List SensorReading)
  | async (message : String) (task_id : String) (status : String)
deriving DecidableEq, Repr

def DispatchResult.isSync : DispatchResult → Bool
  | .sync _ => true
  | .async _ _ _ => false

/-- create_sensor_data (src/app/main.py lines 53-80): batches with
len(readings) > 100 are handed to Celery (SensorService.process_large_batch
returns the task id); all others are inserted synchronously. The task id
generated by the message broker is passed in as a parameter. -/
def create_sensor_data (now : Int) (taskId : String) (db : DB)
    (readings : List SensorReadingCreate) : DispatchResult × DB :=
  if readings.length > 100 then
    (.async ("Processing " ++ toString readings.length ++ " readings in background")
      taskId "processing", db)
  else
    let res := create_sensor_readings_batch now db readings
    (.sync res.2, res.1)

/-- Closed form of the rows produced by a batch insert starting at id n0. -/
def insertedRows (n0 : Nat) (now : Int) : List SensorReadingCreate → List SensorReading
  | [] => []
  | r :: rest => mkRow n0 now r :: insertedRows (n0 + 1) now rest

theorem insertedRows_length (n0 : Nat) (now : Int) (rs : List SensorReadingCreate) :
    (insertedRows n0 now rs).length = rs.length := by
  induction rs generalizing n0 with
  | nil => rfl
  | cons r rest ih => simp [insertedRows, ih]

theorem create_batch_eq (now : Int) (db : DB) (readings : List SensorReadingCreate) :
    create_sensor_readings_batch now db readings =
      ({ db with nextId := db.nextId + readings.length,
                 readings := db.readings ++ insertedRows db.nextId now readings },
       insertedRows db.nextId now readings) := by
  induction readings generalizing db with
  | nil => simp [create_sensor_readings_batch, insertedRows]
  | cons r rest ih =>
      simp only [create_sensor_readings_batch, insertedRows, ih, Prod.mk.injEq, DB.mk.injEq,
        List.append_assoc, List.singleton_append, List.length_cons, and_true, true_and]
      omega

theorem insertedRows_map_id (n0 : Nat) (now : Int) (rs : List SensorReadingCreate) :
    (insertedRows n0 now rs).map (fun r => r.id) = List.range' n0 rs.length := by
  induction rs generalizing n0 with
  | nil => rfl
  | cons r rest ih => simp [insertedRows, List.range', mkRow, ih]

theorem insertedRows_forall2 (n0 : Nat) (now : Int) (rs : List SensorReadingCreate) :
    List.Forall₂ (fun (inp : SensorReadingCreate) (row : SensorReading) =>
      row.timestamp = inp.timestamp.getD now ∧ row.field_id = inp.field_id ∧
      row.sensor_type = inp.sensor_type ∧ row.reading_value = inp.reading_value ∧
      row.unit = inp.unit) rs (insertedRows n0 now rs) := by
  induction rs generalizing n0 with
  | nil => exact List.Forall₂.nil
  | cons r rest ih => exact List.Forall₂.cons (by simp [mkRow]) (ih (n0 + 1))

/-- Claim C8: for every list of reading inputs, the batch insert assigns each
input with an absent timestamp the default timestamp now, persists all rows
(appended to the table in one commit, leaving daily_stats untouched), and
returns the rows carrying the freshly assigned consecutive identities. -/
theorem C8_insertMany_contract (now : Int) (db : DB) (readings : List SensorReadingCreate) :
    ((create_sensor_readings_batch now db readings).2).length = readings.length ∧
    ((create_sensor_readings_batch now db readings).1).readings =
      db.readings ++ (create_sensor_readings_batch now db readings).2 ∧
    ((create_sensor_readings_batch now db readings).1).nextId = db.nextId + readings.length ∧
    ((create_sensor_readings_batch now db readings).1).stats = db.stats ∧
    ((create_sensor_readings_batch now db readings).2).map (fun r => r.id) =
      List.range' db.nextId readings.length ∧
    List.Forall₂ (fun (inp : SensorReadingCreate) (row : SensorReading) =>
      row.timestamp = inp.timestamp.getD now ∧ row.field_id = inp.field_id ∧
      row.sensor_type = inp.sensor_type ∧ row.reading_value = inp.reading_value ∧
      row.unit = inp.unit) readings (create_sensor_readings_batch now db readings).2 := by
  rw [create_batch_eq]
  exact ⟨insertedRows_length db.nextId now readings, rfl, rfl, rfl,
    insertedRows_map_id db.nextId now readings, insertedRows_forall2 db.nextId now readings⟩

/-- A concrete validated input and an empty store, for evaluations. -/
def sampleCreate : SensorReadingCreate :=
  { timestamp := some 0, field_id := "F1", sensor_type := "temp",
    reading_value := 1, unit := "C" }

def db0 : DB := { nextId := 1, readings := [], stats := [] }

/-- Claim C1 (code bug, evaluated at the failing input): the endpoint
dispatches asynchronously only when the batch length strictly exceeds 100,
so a batch of exactly 100 readings is inserted synchronously and returns
persisted rows, contradicting the stated rule that 100 or more readings go
to asynchronous execution. A batch of 101 is dispatched asynchronously. -/
theorem C1_dispatch_boundary :
    (∀ (now : Int) (tid : String) (db : DB) (rs : List SensorReadingCreate),
      (create_sensor_data now tid db rs).1.isSync = decide (rs.length ≤ 100)) ∧
    (List.replicate 100 sampleCreate).length = 100 ∧
    (create_sensor_data 0 "tid" db0 (List.replicate 100 sampleCreate)).1.isSync = true ∧
    (create_sensor_data 0 "tid" db0 (List.replicate 101 sampleCreate)).1.isSync = false := by
  refine ⟨fun now tid db rs => ?_, rfl, by decide, by decide⟩
  by_cases h : rs.length > 100
  · simp [create_sensor_data, h, DispatchResult.isSync, Nat.not_le.mpr h]
  · simp [create_sensor_data, h, DispatchResult.isSync, Nat.not_lt.mp h]

/-- ORDER BY timestamp DESC: the relation "a comes no later than b in the
output", i.e. the timestamp of b is at most that of a. -/
def tsDescRel (a b : SensorReading) : Prop := b.timestamp ≤ a.timestamp

instance : DecidableRel tsDescRel :=
  fun a b => inferInstanceAs (Decidable (b.timestamp ≤ a.timestamp))

instance : IsTotal SensorReading tsDescRel :=
  ⟨fun a b => le_total b.timestamp a.timestamp⟩

instance : IsTrans SensorReading tsDescRel :=
  ⟨fun _ _ _ h1 h2 => le_trans h2 h1⟩

/-- A timestamp-descending ordering of the rows, as produced by
ORDER BY timestamp DESC. -/
def sortDesc (l : List SensorReading) : List SensorReading :=
  List.insertionSort tsDescRel l

/-- get_readings (src/app/main.py lines 195-225): Python truthiness on the
two optional query parameters (a filter is applied only when the value is
a non-empty string), then order by timestamp descending, offset, limit. -/
def get_readings (db : DB) (limit offset : Nat)
    (field_id sensor_type : Option String) : List SensorReading :=
  let q := db.readings
  let q1 := match field_id with
    | some f => if f ≠ "" then q.filter (fun r => r.field_id == f) else q
    | none => q
  let q2 := match sensor_type with
    | some s => if s ≠ "" then q1.filter (fun r => r.sensor_type == s) else q1
    | none => q1
  ((sortDesc q2).drop offset).take limit

/-- Spec-side filter semantics: an absent filter matches every row, a
provided filter matches by string equality. -/
def matchOpt (o : Option String) (s : String) : Bool :=
  match o with
  | none => true
  | some f => s == f

theorem sortDesc_pairwise (l : List SensorReading) : (sortDesc l).Pairwise tsDescRel :=
  List.sorted_insertionSort tsDescRel l

theorem sortDesc_perm (l : List SensorReading) : (sortDesc l).Perm l :=
  List.perm_insertionSort tsDescRel l

theorem get_readings_filters (db : DB) (limit offset : Nat)
    (fid st : Option String) (hf : fid ≠ some "") (hs : st ≠ some "") :
    get_readings db limit offset fid st =
      ((sortDesc (db.readings.filter
        (fun r => matchOpt fid r.field_id && matchOpt st r.sensor_type))).drop offset).take limit := by
  have hfid : ∀ f, fid = some f → f ≠ "" := by
    intro f h h0
    exact hf (by rw [h, h0])
  have hst : ∀ s, st = some s → s ≠ "" := by
    intro s h h0
    exact hs (by rw [h, h0])
  cases fid with
  | none =>
      cases st with
      | none =>
          have hfil : db.readings.filter (fun r =>
              matchOpt (none : Option String) r.field_id &&
              matchOpt (none : Option String) r.sensor_type) = db.readings := by
            simp [matchOpt]
          simp [get_readings, hfil]
      | some s =>
          have hfil : db.readings.filter (fun r =>
              matchOpt (none : Option String) r.field_id && matchOpt (some s) r.sensor_type)
              = db.readings.filter (fun r => r.sensor_type == s) :=
            List.filter_congr (fun a _ => by simp [matchOpt])
          simp [get_readings, hfil, hst s rfl]
  | some f =>
      cases st with
      | none =>
          have hfil : db.readings.filter (fun r =>
              matchOpt (some f) r.field_id && matchOpt (none : Option String) r.sensor_type)
              = db.readings.filter (fun r => r.field_id == f) :=
            List.filter_congr (fun a _ => by simp [matchOpt])
          simp [get_readings, hfil, hfid f rfl]
      | some s =>
          have hfil : db.readings.filter (fun r =>
              matchOpt (some f) r.field_id && matchOpt (some s) r.sensor_type)
              = (db.readings.filter (fun r => r.field_id == f)).filter
                  (fun r => r.sensor_type == s) := by
            rw [List.filter_filter]
            exact List.filter_congr (fun a _ => by simp [matchOpt, Bool.and_comm])
          simp [get_readings, hfil, hfid f rfl, hst s rfl]

/-- Claim C6: for every store and every combination of optional filters
(provided filter values being genuine non-empty strings), the readings query
returns exactly the page given by limit and offset of the matching rows in
timestamp-descending order: it equals take limit of drop offset of a
descending sort of the rows matching all provided filters, it is pairwise
descending in timestamp, each returned row is a stored row matching every
provided filter, and at most limit rows are returned. An absent filter
matches all rows. -/
theorem C6_query_contract (db : DB) (limit offset : Nat)
    (fid st : Option String) (hf : fid ≠ some "") (hs : st ≠ some "") :
    get_readings db limit offset fid st =
      ((sortDesc (db.readings.filter
        (fun r => matchOpt fid r.field_id && matchOpt st r.sensor_type))).drop offset).take limit ∧
    (get_readings db limit offset fid st).Pairwise tsDescRel ∧
    (∀ r ∈ get_readings db limit offset fid st,
      r ∈ db.readings ∧ matchOpt fid r.field_id = true ∧ matchOpt st r.sensor_type = true) ∧
    (get_readings db limit offset fid st).length ≤ limit := by
  have heq := get_readings_filters db limit offset fid st hf hs
  refine ⟨heq, ?_, ?_, ?_⟩
  · rw [heq]
    exact ((sortDesc_pairwise _).sublist (List.drop_sublist _ _)).sublist
      (List.take_sublist _ _)
  · intro r hr
    rw [heq] at hr
    have hr2 : r ∈ sortDesc (db.readings.filter
        (fun r => matchOpt fid r.field_id && matchOpt st r.sensor_type)) :=
      List.mem_of_mem_drop (List.mem_of_mem_take hr)
    have hr3 := (sortDesc_perm _).mem_iff.mp hr2
    have hr4 := List.mem_filter.mp hr3
    exact ⟨hr4.1, (Bool.and_eq_true _ _).mp hr4.2 |>.1, (Bool.and_eq_true _ _).mp hr4.2 |>.2⟩
  · rw [heq]
    calc (((sortDesc _).drop offset).take limit).length ≤ limit := by
          simp [List.length_take]

/-- Python min over a list of values. The empty case is never reached: the
caller only evaluates it on a non-empty list. -/
def listMin : List Rat → Rat
  | [] => 0
  | v :: vs => vs.foldl min v

/-- Python max over a list of values, same convention as listMin. -/
def listMax : List Rat → Rat
  | [] => 0
  | v :: vs => vs.foldl max v

/-- Calendar day of a timestamp (func.date), with timestamps in seconds:
floor division by the number of seconds per day. -/
def dateOf (t : Int) : Int := t.fdiv 86400

/-- The per-(field_id, sensor_type) rollup rows computed by
calculate_daily_stats for the given target day (src/app/tasks.py lines
81-111): group the readings falling on that day by (field_id, sensor_type)
and aggregate avg, min, max and count over each group. -/
def freshStats (yesterday : Int) (readings : List SensorReading) : List DailyStat :=
  let dayReadings := readings.filter (fun r => dateOf r.timestamp == yesterday)
  let pairs := (dayReadings.map (fun r => (r.field_id, r.sensor_type))).dedup
  pairs.map (fun p =>
    let group := dayReadings.filter (fun r => r.field_id == p.1 && r.sensor_type == p.2)
    let values := group.map (fun r => r.reading_value)
    { date := yesterday
      field_id := p.1
      sensor_type := p.2
      avg_value := values.sum / (values.length : Rat)
      min_value := listMin values
      max_value := listMax values
      count_readings := group.length })

/-- calculate_daily_stats (src/app/tasks.py lines 68-128): target day is
yesterday relative to now; delete the existing DailyStats rows of that day,
insert the freshly computed rollup rows, commit. -/
def calculate_daily_stats (now : Int) (db : DB) : DB :=
  let yesterday := dateOf now - 1
  { db with stats := db.stats.filter (fun s => !(s.date == yesterday)) ++
      freshStats yesterday db.readings }

/-- clear_all_data (src/app/main.py lines 227-258): delete every row of both
tables and return both deleted counts. -/
def clear_all_data (db : DB) : DB × Nat × Nat :=
  ({ db with readings := [], stats := [] }, db.readings.length, db.stats.length)

theorem freshStats_date (y : Int) (rs : List SensorReading) :
    ∀ s ∈ freshStats y rs, s.date = y := by
  intro s hs
  obtain ⟨p, _, hp⟩ := List.mem_map.mp hs
  rw [← hp]

theorem foldl_min_le (vs : List Rat) (a : Rat) :
    vs.foldl min a ≤ a ∧ ∀ v ∈ vs, vs.foldl min a ≤ v := by
  induction vs generalizing a with
  | nil => simp
  | cons v vs ih =>
      obtain ⟨h1, h2⟩ := ih (min a v)
      refine ⟨le_trans h1 (min_le_left a v), ?_⟩
      intro w hw
      rcases List.mem_cons.mp hw with hw | hw
      · subst hw
        exact le_trans h1 (min_le_right a w)
      · exact h2 w hw

theorem foldl_min_mem (vs : List Rat) (a : Rat) :
    vs.foldl min a = a ∨ vs.foldl min a ∈ vs := by
  induction vs generalizing a with
  | nil => exact Or.inl rfl
  | cons v vs ih =>
      rcases ih (min a v) with h | h
      · rcases min_choice a v with hc | hc
        · exact Or.inl (by rw [List.foldl_cons, h, hc])
        · exact Or.inr (by rw [List.foldl_cons, h, hc]; exact List.mem_cons_self v vs)
      · exact Or.inr (List.mem_cons_of_mem v h)

theorem foldl_max_le (vs : List Rat) (a : Rat) :
    a ≤ vs.foldl max a ∧ ∀ v ∈ vs, v ≤ vs.foldl max a := by
  induction vs generalizing a with
  | nil => simp
  | cons v vs ih =>
      obtain ⟨h1, h2⟩ := ih (max a v)
      refine ⟨le_trans (le_max_left a v) h1, ?_⟩
      intro w hw
      rcases List.mem_cons.mp hw with hw | hw
      · subst hw
        exact le_trans (le_max_right a w) h1
      · exact h2 w hw

theorem foldl_max_mem (vs : List Rat) (a : Rat) :
    vs.foldl max a = a ∨ vs.foldl max a ∈ vs := by
  induction vs generalizing a with
  | nil => exact Or.inl rfl
  | cons v vs ih =>
      rcases ih (max a v) with h | h
      · rcases max_choice a v with hc | hc
        · exact Or.inl (by rw [List.foldl_cons, h, hc])
        · exact Or.inr (by rw [List.foldl_cons, h, hc]; exact List.mem_cons_self v vs)
      · exact Or.inr (List.mem_cons_of_mem v h)

theorem listMin_spec (l : List Rat) (h : l ≠ []) :
    listMin l ∈ l ∧ ∀ v ∈ l, listMin l ≤ v := by
  cases l with
  | nil => exact absurd rfl h
  | cons v vs =>
      constructor
      · rcases foldl_min_mem vs v with hm | hm
        · rw [listMin, hm]; exact List.mem_cons_self v vs
        · exact List.mem_cons_of_mem v (by rw [listMin]; exact hm)
      · intro w hw
        rcases List.mem_cons.mp hw with hw | hw
        · subst hw
          exact (foldl_min_le vs w).1
        · exact (foldl_min_le vs v).2 w hw

theorem listMax_spec (l : List Rat) (h : l ≠ []) :
    listMax l ∈ l ∧ ∀ v ∈ l, v ≤ listMax l := by
  cases l with
  | nil => exact absurd rfl h
  | cons v vs =>
      constructor
      · rcases foldl_max_mem vs v with hm | hm
        · rw [listMax, hm]; exact List.mem_cons_self v vs
        · exact List.mem_cons_of_mem v (by rw [listMax]; exact hm)
      · intro w hw
        rcases List.mem_cons.mp hw with hw | hw
        · subst hw
          exact (foldl_max_le vs w).1
        · exact (foldl_max_le vs v).2 w hw

/-- Per-field analytics record (AnalyticsService.get_field_analytics result
dict, src/app/services.py lines 97-116). -/
structure FieldAnalytics where
  field_id : String
  total_readings : Nat
  avg_value : Rat
  min_value : Rat
  max_value : Rat
  sensor_types : List String
deriving DecidableEq, Repr

/-- AnalyticsService.get_field_analytics (src/app/services.py lines 97-116):
select the rows of the field; an empty result yields the empty dict (the
not-found signal, modelled as none); otherwise aggregate in memory. Python
list(set(..)) is modelled as dedup; only set-level facts are claimed. -/
def get_field_analytics (db : DB) (fid : String) : Option FieldAnalytics :=
  let readings := db.readings.filter (fun r => r.field_id == fid)
  if readings.isEmpty then none
  else
    let values := readings.map (fun r => r.reading_value)
    some { field_id := fid
           total_readings := readings.length
           avg_value := values.sum / (values.length : Rat)
           min_value := listMin values
           max_value := listMax values
           sensor_types := (readings.map (fun r => r.sensor_type)).dedup }

/-- Claim C3: for a field with at least one stored reading, the analytics
report has totalReadings equal to the number of matching rows, avg equal to
the arithmetic mean of their reading values (equivalently, avg times the
count gives the sum), min and max attained least and greatest values, and
sensorTypes the deduplicated set of sensor types of those rows; for a field
with zero readings the result is the defined empty signal. -/
theorem C3_field_analytics (db : DB) (fid : String) :
    (db.readings.filter (fun r => r.field_id == fid) = [] →
      get_field_analytics db fid = none) ∧
    (db.readings.filter (fun r => r.field_id == fid) ≠ [] →
      ∃ a, get_field_analytics db fid = some a ∧
        a.field_id = fid ∧
        a.total_readings = (db.readings.filter (fun r => r.field_id == fid)).length ∧
        a.avg_value =
          ((db.readings.filter (fun r => r.field_id == fid)).map
            (fun r => r.reading_value)).sum / (a.total_readings : Rat) ∧
        a.avg_value * (a.total_readings : Rat) =
          ((db.readings.filter (fun r => r.field_id == fid)).map
            (fun r => r.reading_value)).sum ∧
        a.min_value ∈ (db.readings.filter (fun r => r.field_id == fid)).map
            (fun r => r.reading_value) ∧
        (∀ v ∈ (db.readings.filter (fun r => r.field_id == fid)).map
            (fun r => r.reading_value), a.min_value ≤ v) ∧
        a.max_value ∈ (db.readings.filter (fun r => r.field_id == fid)).map
            (fun r => r.reading_value) ∧
        (∀ v ∈ (db.readings.filter (fun r => r.field_id == fid)).map
            (fun r => r.reading_value), v ≤ a.max_value) ∧
        a.sensor_types.Nodup ∧
        (∀ s, s ∈ a.sensor_types ↔
          ∃ r ∈ db.readings.filter (fun r => r.field_id == fid), r.sensor_type = s)) := by
  constructor
  · intro h
    simp [get_field_analytics, h]
  · intro h
    have hne : (db.readings.filter (fun r => r.field_id == fid)).isEmpty = false := by
      simp [List.isEmpty_iff, h]
    have hmap : (db.readings.filter (fun r => r.field_id == fid)).map
        (fun r => r.reading_value) ≠ [] := by
      simp [List.map_eq_nil_iff, h]
    have hlen : ((db.readings.filter (fun r => r.field_id == fid)).length : Rat) ≠ 0 := by
      have : (db.readings.filter (fun r => r.field_id == fid)).length ≠ 0 := by
        simp [List.length_eq_zero, h]
      exact_mod_cast this
    refine ⟨{ field_id := fid
              total_readings := (db.readings.filter (fun r => r.field_id == fid)).length
              avg_value := ((db.readings.filter (fun r => r.field_id == fid)).map
                  (fun r => r.reading_value)).sum /
                (((db.readings.filter (fun r => r.field_id == fid)).map
                  (fun r => r.reading_value)).length : Rat)
              min_value := listMin ((db.readings.filter (fun r => r.field_id == fid)).map
                  (fun r => r.reading_value))
              max_value := listMax ((db.readings.filter (fun r => r.field_id == fid)).map
                  (fun r => r.reading_value))
              sensor_types := ((db.readings.filter (fun r => r.field_id == fid)).map
                  (fun r => r.sensor_type)).dedup },
            ?_, rfl, rfl, ?_, ?_, ?_, ?_, ?_, ?_, ?_, ?_⟩
    · simp [get_field_analytics, hne]
    · simp [List.length_map]
    · simp only [List.length_map]
      exact div_mul_cancel₀ _ hlen
    · exact (listMin_spec _ hmap).1
    · exact (listMin_spec _ hmap).2
    · exact (listMax_spec _ hmap).1
    · exact (listMax_spec _ hmap).2
    · exact List.nodup_dedup _
    · intro s
      rw [List.mem_dedup, List.mem_map]

/-- The scenario store of the spec: three readings for field F1, sensor
type temp, with values 10, 20, 30. -/
def dbScenario : DB :=
  { nextId := 4
    readings := [
      { id := 1, timestamp := 100, field_id := "F1", sensor_type := "temp",
        reading_value := 10, unit := "C" },
      { id := 2, timestamp := 200, field_id := "F1", sensor_type := "temp",
        reading_value := 20, unit := "C" },
      { id := 3, timestamp := 300, field_id := "F1", sensor_type := "temp",
        reading_value := 30, unit := "C" }]
    stats := [] }

/-- Witness for C3 at the spec scenario: field F1 has readings, and the
analytics contract holds there; concretely the report is avg 20, min 10,
max 30, 3 readings, sensor types [temp]. -/
theorem C3_field_analytics_witness :
    dbScenario.readings.filter (fun r => r.field_id == "F1") ≠ [] ∧
    (∃ a, get_field_analytics dbScenario "F1" = some a ∧
        a.field_id = "F1" ∧
        a.total_readings = (dbScenario.readings.filter (fun r => r.field_id == "F1")).length ∧
        a.avg_value =
          ((dbScenario.readings.filter (fun r => r.field_id == "F1")).map
            (fun r => r.reading_value)).sum / (a.total_readings : Rat) ∧
        a.avg_value * (a.total_readings : Rat) =
          ((dbScenario.readings.filter (fun r => r.field_id == "F1")).map
            (fun r => r.reading_value)).sum ∧
        a.min_value ∈ (dbScenario.readings.filter (fun r => r.field_id == "F1")).map
            (fun r => r.reading_value) ∧
        (∀ v ∈ (dbScenario.readings.filter (fun r => r.field_id == "F1")).map
            (fun r => r.reading_value), a.min_value ≤ v) ∧
        a.max_value ∈ (dbScenario.readings.filter (fun r => r.field_id == "F1")).map
            (fun r => r.reading_value) ∧
        (∀ v ∈ (dbScenario.readings.filter (fun r => r.field_id == "F1")).map
            (fun r => r.reading_value), v ≤ a.max_value) ∧
        a.sensor_types.Nodup ∧
        (∀ s, s ∈ a.sensor_types ↔
          ∃ r ∈ dbScenario.readings.filter (fun r => r.field_id == "F1"),
            r.sensor_type = s)) ∧
    (∃ a, get_field_analytics dbScenario "F1" = some a ∧
      a.field_id = "F1" ∧ a.total_readings = 3 ∧ a.avg_value = 20 ∧
      a.min_value = 10 ∧ a.max_value = 30 ∧ a.sensor_types = ["temp"]) := by
  refine ⟨by decide, (C3_field_analytics dbScenario "F1").2 (by decide), ?_⟩
  have hfil : dbScenario.readings.filter (fun r => r.field_id == "F1")
      = dbScenario.readings := by decide
  have hres : get_field_analytics dbScenario "F1" =
      some { field_id := "F1", total_readings := 3, avg_value := 20,
             min_value := 10, max_value := 30, sensor_types := ["temp"] } := by
    simp only [get_field_analytics, hfil]
    norm_num [dbScenario, listMin, listMax, min_def, max_def,
      List.dedup_cons_of_mem, List.dedup_cons_of_not_mem]
  exact ⟨_, hres, rfl, rfl, rfl, rfl, rfl, rfl⟩

/-- Witness for C6: the query contract applied to the scenario store with a
provided field filter F1, no sensor filter, limit 2, offset 0. -/
theorem C6_query_contract_witness :
    ((some "F1" : Option String) ≠ some "") ∧ ((none : Option String) ≠ some "") ∧
    (get_readings dbScenario 2 0 (some "F1") none =
      ((sortDesc (dbScenario.readings.filter
        (fun r => matchOpt (some "F1") r.field_id && matchOpt none r.sensor_type))).drop 0).take 2 ∧
    (get_readings dbScenario 2 0 (some "F1") none).Pairwise tsDescRel ∧
    (∀ r ∈ get_readings dbScenario 2 0 (some "F1") none,
      r ∈ dbScenario.readings ∧ matchOpt (some "F1") r.field_id = true ∧
      matchOpt none r.sensor_type = true) ∧
    (get_readings dbScenario 2 0 (some "F1") none).length ≤ 2) :=
  ⟨by decide, by decide,
    C6_query_contract dbScenario 2 0 (some "F1") none (by decide) (by decide)⟩

/-- Claim C10: an empty-string filter value behaves exactly like an absent
filter: the query result is unchanged when some "" is replaced by none, for
either of the two filters. -/
theorem C10_empty_filter_is_absent (db : DB) (limit offset : Nat)
    (fid st : Option String) :
    get_readings db limit offset (some "") st = get_readings db limit offset none st ∧
    get_readings db limit offset fid (some "") = get_readings db limit offset fid none := by
  constructor
  · simp [get_readings]
  · simp [get_readings]

theorem rollup_stats_idem (y : Int) (rs : List SensorReading) (S : List DailyStat) :
    (S.filter (fun s => !(s.date == y)) ++ freshStats y rs).filter
        (fun s => !(s.date == y)) ++ freshStats y rs =
      S.filter (fun s => !(s.date == y)) ++ freshStats y rs := by
  have hFkeep : (freshStats y rs).filter (fun s => !(s.date == y)) = [] := by
    rw [List.filter_eq_nil_iff]
    intro s hs
    simp [freshStats_date y rs s hs]
  rw [List.filter_append, hFkeep, List.append_nil, List.filter_filter]
  congr 1
  exact List.filter_congr (fun a _ => by simp)

theorem rollup_stats_sel (y : Int) (rs : List SensorReading) (S : List DailyStat) :
    (S.filter (fun s => !(s.date == y)) ++ freshStats y rs).filter
        (fun s => s.date == y) = freshStats y rs := by
  have hAdrop : (S.filter (fun s => !(s.date == y))).filter (fun s => s.date == y) = [] := by
    rw [List.filter_eq_nil_iff]
    intro s hs
    have := (List.mem_filter.mp hs).2
    simp at this
    simp [this]
  have hFsel : (freshStats y rs).filter (fun s => s.date == y) = freshStats y rs := by
    rw [List.filter_eq_self]
    intro s hs
    simp [freshStats_date y rs s hs]
  rw [List.filter_append, hAdrop, List.nil_append, hFsel]

theorem freshStats_keys (y : Int) (rs : List SensorReading) :
    (freshStats y rs).map (fun s => (s.field_id, s.sensor_type)) =
      ((rs.filter (fun r => dateOf r.timestamp == y)).map
        (fun r => (r.field_id, r.sensor_type))).dedup := by
  simp [freshStats, List.map_map, Function.comp_def, Prod.mk.eta, List.map_id]

/-- Claim C4: re-running the daily rollup for the same day over the same
readings is idempotent: the second run reproduces exactly the same store
state (old rows for the target day are purged before the fresh rows are
inserted). Moreover, after a rollup the rows of the target day are exactly
the freshly computed ones, which carry pairwise distinct
(field_id, sensor_type) keys: one logical row per combination. -/
theorem C4_rollup_idempotent (now : Int) (db : DB) :
    calculate_daily_stats now (calculate_daily_stats now db) =
      calculate_daily_stats now db ∧
    (calculate_daily_stats now db).stats.filter (fun s => s.date == dateOf now - 1) =
      freshStats (dateOf now - 1) db.readings ∧
    (((calculate_daily_stats now db).stats.filter
        (fun s => s.date == dateOf now - 1)).map
      (fun s => (s.field_id, s.sensor_type))).Nodup := by
  refine ⟨?_, ?_, ?_⟩
  · simp only [calculate_daily_stats]
    rw [DB.mk.injEq]
    exact ⟨rfl, rfl, rollup_stats_idem _ _ _⟩
  · simp only [calculate_daily_stats]
    exact rollup_stats_sel _ _ _
  · simp only [calculate_daily_stats]
    rw [rollup_stats_sel, freshStats_keys]
    exact List.nodup_dedup _

theorem freshStats_count_pos (y : Int) (rs : List SensorReading) :
    ∀ s ∈ freshStats y rs, 1 ≤ s.count_readings := by
  intro s hs
  simp only [freshStats] at hs
  obtain ⟨p, hp, hps⟩ := List.mem_map.mp hs
  obtain ⟨r, hr, hkey⟩ := List.mem_map.mp (List.mem_dedup.mp hp)
  have hrg : r ∈ (rs.filter (fun r => dateOf r.timestamp == y)).filter
      (fun r2 => r2.field_id == p.1 && r2.sensor_type == p.2) := by
    refine List.mem_filter.mpr ⟨hr, ?_⟩
    rw [← hkey]
    simp
  rw [← hps]
  exact List.length_pos.mpr (List.ne_nil_of_mem hrg)

/-- Claim C7: every DailyStats row has count_readings at least 1. The two
operations that create or replace DailyStats rows both preserve the
invariant: the daily rollup only adds rows built from non-empty groups, and
the administrative clear leaves no rows at all. -/
theorem C7_count_readings_pos (now : Int) (db : DB)
    (h : ∀ s ∈ db.stats, 1 ≤ s.count_readings) :
    (∀ s ∈ (calculate_daily_stats now db).stats, 1 ≤ s.count_readings) ∧
    (∀ s ∈ (clear_all_data db).1.stats, 1 ≤ s.count_readings) := by
  constructor
  · intro s hs
    simp only [calculate_daily_stats] at hs
    rcases List.mem_append.mp hs with hs | hs
    · exact h s (List.mem_filter.mp hs).1
    · exact freshStats_count_pos _ _ s hs
  · intro s hs
    simp [clear_all_data] at hs

/-- A store holding one reading and one DailyStats row, for witnesses. -/
def dbStats0 : DB :=
  { nextId := 2
    readings := [{ id := 1, timestamp := 50, field_id := "F1",
                   sensor_type := "temp", reading_value := 5, unit := "C" }]
    stats := [{ date := -1, field_id := "F0", sensor_type := "hum",
                avg_value := 1, min_value := 1, max_value := 1,
                count_readings := 2 }] }

/-- Witness for C7 at a concrete store whose existing rollup row has a
positive count. -/
theorem C7_count_readings_pos_witness :
    (∀ s ∈ dbStats0.stats, 1 ≤ s.count_readings) ∧
    ((∀ s ∈ (calculate_daily_stats 86400 dbStats0).stats, 1 ≤ s.count_readings) ∧
     (∀ s ∈ (clear_all_data dbStats0).1.stats, 1 ≤ s.count_readings)) :=
  ⟨by decide, C7_count_readings_pos 86400 dbStats0 (by decide)⟩

theorem length_filter_partition {α : Type} (p : α → Bool) (l : List α) :
    (l.filter p).length + (l.filter (fun a => !(p a))).length = l.length := by
  induction l with
  | nil => rfl
  | cons a l ih =>
      cases h : p a <;> simp [List.filter_cons, h, ← ih] <;> omega

/-- cleanup_old_data (src/app/tasks.py lines 130-153): cutoff is now minus
90 days; delete the sensor readings with timestamp strictly before the
cutoff and return the deleted row count (the rowcount of the DELETE). -/
def cleanup_old_data (now : Int) (db : DB) : DB × Nat :=
  let cutoff := now - 90 * 86400
  ({ db with readings := db.readings.filter (fun r => !(r.timestamp < cutoff)) },
   (db.readings.filter (fun r => r.timestamp < cutoff)).length)

/-- Claim C5: the retention sweep deletes exactly the rows with timestamp
strictly before the cutoff now minus 90 days: a row survives iff it was
stored and not older than the cutoff, surviving rows are kept in place (a
sublist of the original table), and the returned count is the number of
deleted rows, complementing the survivors to the original count. -/
theorem C5_cleanup_exact (now : Int) (db : DB) :
    (∀ r, r ∈ ((cleanup_old_data now db).1).readings ↔
      (r ∈ db.readings ∧ ¬(r.timestamp < now - 90 * 86400))) ∧
    ((cleanup_old_data now db).1).readings.Sublist db.readings ∧
    (cleanup_old_data now db).2 =
      (db.readings.filter (fun r => r.timestamp < now - 90 * 86400)).length ∧
    (cleanup_old_data now db).2 + ((cleanup_old_data now db).1).readings.length =
      db.readings.length := by
  refine ⟨?_, List.filter_sublist _, rfl, ?_⟩
  · intro r
    simp [cleanup_old_data, List.mem_filter]
  · exact length_filter_partition _ db.readings

/-- Claim C9: the retention sweep only touches sensor readings: the
DailyStats table (and the id sequence) after the sweep is exactly what it
was before, so every historical rollup row is still present, unmodified. -/
theorem C9_cleanup_frames_stats (now : Int) (db : DB) :
    ((cleanup_old_data now db).1).stats = db.stats ∧
    ((cleanup_old_data now db).1).nextId = db.nextId :=
  ⟨rfl, rfl⟩

/-- A serialized reading as the Celery worker receives it: a dict whose keys
may be missing (a missing key makes the subscript access raise). -/
structure ReadingDict where
  timestamp : Option Int
  field_id : Option String
  sensor_type : Option String
  reading_value : Option Rat
  unit : Option String
deriving DecidableEq, Repr

/-- Python subscript access d[k]: the value, or a raised KeyError. -/
def getKey {α : Type} (v : Option α) (k : String) : Except String α :=
  match v with
  | some x => Except.ok x
  | none => Except.error ("KeyError: " ++ k)

/-- Construction of a SensorReading row inside the worker loop
(src/app/tasks.py lines 29-35), propagating a raised KeyError. -/
def buildFromDict (id : Nat) (d : ReadingDict) : Except String SensorReading := do
  let ts ← getKey d.timestamp "timestamp"
  let fid ← getKey d.field_id "field_id"
  let st ← getKey d.sensor_type "sensor_type"
  let v ← getKey d.reading_value "reading_value"
  let u ← getKey d.unit "unit"
  Except.ok { id := id, timestamp := ts, field_id := fid, sensor_type := st,
              reading_value := v, unit := u }

/-- The worker loop over the batch: build every row or propagate the first
raised error. -/
def buildAll (n0 : Nat) : List ReadingDict → Except String (List SensorReading)
  | [] => Except.ok []
  | d :: ds => do
      let r ← buildFromDict n0 d
      let rs ← buildAll (n0 + 1) ds
      Except.ok (r :: rs)

/-- The Python dict a task returns or stores as progress meta; absent keys
are none (dict.get with a default reads them). -/
structure TaskDict where
  status : Option String
  processed_count : Option Nat
  message : Option String
  error : Option String
  current : Option Nat
  total : Option Nat
deriving DecidableEq, Repr

def emptyTaskDict : TaskDict :=
  { status := none, processed_count := none, message := none, error := none,
    current := none, total := none }

/-- process_sensor_data_batch (src/app/tasks.py lines 15-66): build and add
every row, commit once, and return the success dict; any exception is caught
and the function returns a dict with status FAILURE and the stringified
error instead of raising (the session is closed without commit, so the
store is unchanged). -/
def process_sensor_data_batch (db : DB) (data : List ReadingDict) : TaskDict × DB :=
  match buildAll db.nextId data with
  | Except.ok rows =>
      ({ emptyTaskDict with
          status := some "SUCCESS"
          processed_count := some data.length
          message := some ("Successfully processed " ++ toString data.length ++
            " sensor readings") },
       { db with nextId := db.nextId + data.length,
                 readings := db.readings ++ rows })
  | Except.error e =>
      ({ emptyTaskDict with status := some "FAILURE", error := some e }, db)

/-- The result-backend record the status endpoint polls. -/
structure TaskBackend where
  state : String
  info : TaskDict
deriving DecidableEq, Repr

/-- The asynchronous executor contract (Celery result backend): a task
function that returns a value without raising is recorded in state SUCCESS
with the returned value as its result; a FAILURE state would only be
recorded if the task function raised. process_sensor_data_batch catches
every exception and returns, so running it to completion always ends in
state SUCCESS. -/
def run_batch_task (db : DB) (data : List ReadingDict) : TaskBackend × DB :=
  let res := process_sensor_data_batch db data
  ({ state := "SUCCESS", info := res.1 }, res.2)

/-- Python str(task.info) as used by the FAILURE branch of the status
endpoint; only that dead branch reads it. -/
def strOfTaskInfo (d : TaskDict) : String :=
  match d.error with
  | some e => e
  | none => "None"

structure TaskResponse where
  task_id : String
  status : String
  message : String
deriving DecidableEq, Repr

/-- get_task_status (src/app/main.py lines 155-193): dispatch on the task
state reported by the executor backend. -/
def get_task_status (b : TaskBackend) (task_id : String) : TaskResponse :=
  if b.state == "PENDING" then
    { task_id := task_id, status := "PENDING", message := "Task is pending" }
  else if b.state == "PROGRESS" then
    { task_id := task_id, status := "PROGRESS",
      message := "Task is in progress: " ++ toString (b.info.current.getD 0) ++
        "/" ++ toString (b.info.total.getD 0) }
  else if b.state == "SUCCESS" then
    { task_id := task_id, status := "SUCCESS",
      message := b.info.message.getD "Task completed successfully" }
  else
    { task_id := task_id, status := "FAILURE", message := strOfTaskInfo b.info }

/-- An asynchronous batch whose processing raises: the first dict lacks the
timestamp key, so the worker loop raises KeyError. -/
def badBatch : List ReadingDict :=
  [{ timestamp := none, field_id := some "F1", sensor_type := some "temp",
     reading_value := some 1, unit := some "C" }]

/-- Claim C2 (code bug, evaluated at the failing input): processing badBatch
raises an error which the worker captures, but because the worker returns a
dict instead of raising, the executor records the task as SUCCESS; a
subsequent status poll therefore reports status SUCCESS with the default
completion message, not FAILURE with the stringified error. -/
theorem C2_failure_polls_as_success :
    buildAll db0.nextId badBatch = Except.error ("KeyError: " ++ "timestamp") ∧
    (process_sensor_data_batch db0 badBatch).1.status = some "FAILURE" ∧
    (run_batch_task db0 badBatch).1.state = "SUCCESS" ∧
    (run_batch_task db0 badBatch).2 = db0 ∧
    get_task_status (run_batch_task db0 badBatch).1 "tid" =
      { task_id := "tid", status := "SUCCESS",
        message := "Task completed successfully" } ∧
    (get_task_status (run_batch_task db0 badBatch).1 "tid").status ≠ "FAILURE" := by
  refine ⟨rfl, rfl, rfl, rfl, by decide, by decide⟩
